import Mathlib

/-!
Verification of the trajectory replay engine of `scripts/playback_datasets.py`
(dexmimicgen dataset playback).

The Python source is shallowly embedded:

* `reset_to` (simulator state restoration) is modelled as a pure function
  producing the ordered trace of simulator calls it issues, plus its return
  value.  The simulator handle is abstracted by `EnvCaps`, which records which
  optional duck-typed capabilities (`set_attrs_from_ep_meta`, `set_ep_meta`,
  `update_sites`, `update_state`) the environment object implements, and the
  robosuite minor version used for the XML-normalization dispatch.
* the argument pre-flight checks of `playback_dataset` (lines 321-344) are
  modelled by `playback_dataset_argcheck`, with Python `assert` failures mapped
  to `Except.error`.
* the per-episode replay loop of `playback_trajectory_with_env` is modelled by
  `replayGo` / `playback_trajectory_with_env` over an abstract deterministic
  simulator `SimModel`; the divergence comparison of lines 121-134 is also
  exposed standalone as `divergence_distance`.  `np.linalg.norm` is modelled
  over the reals (`euclNorm`), which is why those definitions are marked
  noncomputable; state vectors themselves are rationals, so the equality test
  and all control flow remain decidable.
* the episode-id sort of lines 381-391 is modelled by `demo_sort`; `np.argsort`
  is modelled by sorting the index list (insertion sort agrees with it on the
  duplicate-free keys the claims quantify over), and Python `int(elem[5:])` by
  `pyInt?` on the character list of the id (sign + decimal digits).
* `np.concatenate(imgs, axis=1)` on a list of images (lists of pixel rows) is
  modelled by `np_concat_axis1`, returning `none` where numpy raises.
-/

/-- Episode metadata as attached by `reset_to`: the JSON-parsed `ep_meta`
blob when present (`json.loads(state["ep_meta"])`), else the empty dict. -/
inductive EpMeta where
  | empty
  | parsed (raw : String)
deriving DecidableEq

/-- The scene XML handed to `env.reset_from_xml_string`, tagged with which
version-dependent normalization produced it (`postprocess_model_xml` for
robosuite minor version ≤ 3, `env.edit_model_xml` for newer). -/
inductive Xml where
  | postprocessed (raw : String)
  | edited (raw : String)
deriving DecidableEq

/-- One call issued by `reset_to` on the simulator, in program order. -/
inductive RSEvent where
  | setAttrsFromEpMeta (m : EpMeta)
  | setEpMeta (m : EpMeta)
  | reset
  | resetFromXmlString (x : Xml)
  | simReset
  | setStateFromFlattened (v : List ℚ)
  | simForward
  | updateSites
  | updateState
deriving DecidableEq

/-- Capability surface of the duck-typed environment handle: which optional
methods `hasattr` finds, plus the robosuite minor version read at line 288. -/
structure EnvCaps where
  hasSetAttrsFromEpMeta : Bool
  hasSetEpMeta : Bool
  hasUpdateSites : Bool
  hasUpdateState : Bool
  robosuiteMinor : Nat
deriving DecidableEq

/-- The `state` dict argument of `reset_to`: optional keys `model`, `states`,
`ep_meta` (`ep_meta` may also be present but `None`, which is the same as
absent for line 275; both are `none` here). -/
structure ResetRequest where
  model : Option String
  states : Option (List ℚ)
  ep_meta : Option String
deriving DecidableEq

/-- Observation dictionary type (never actually constructed by `reset_to`:
the code that would return it is commented out at lines 315-317). -/
abbrev Obs := List (String × List ℚ)

/-- Result of `reset_to`: the ordered trace of simulator calls and the
Python return value. -/
structure ResetResult where
  trace : List RSEvent
  ret : Option Obs
deriving DecidableEq

/-- Line 275-279: `ep_meta = json.loads(state["ep_meta"])` when the key is
present and not `None`, else `ep_meta = {}`. -/
def epMetaOf : Option String → EpMeta
  | none => EpMeta.empty
  | some s => EpMeta.parsed s

/-- `reset_to(env, state)` from lines 260-318, as the trace of simulator calls
it performs.  `should_ret` is computed as in the source but is dead: the
`return get_observation()` it used to guard is commented out, so the function
ends with `return None`. -/
def reset_to (env : EnvCaps) (state : ResetRequest) : ResetResult :=
  let _should_ret := state.states.isSome
  let t1 : List RSEvent :=
    match state.model with
    | some m =>
      let ep_meta := epMetaOf state.ep_meta
      (if env.hasSetAttrsFromEpMeta then [RSEvent.setAttrsFromEpMeta ep_meta]
       else if env.hasSetEpMeta then [RSEvent.setEpMeta ep_meta]
       else []) ++
      [RSEvent.reset,
       RSEvent.resetFromXmlString
         (if env.robosuiteMinor ≤ 3 then Xml.postprocessed m else Xml.edited m),
       RSEvent.simReset]
    | none => []
  let t2 : List RSEvent :=
    match state.states with
    | some v => t1 ++ [RSEvent.setStateFromFlattened v, RSEvent.simForward]
    | none => t1
  let t3 := if env.hasUpdateSites then t2 ++ [RSEvent.updateSites] else t2
  let t4 := if env.hasUpdateState then t3 ++ [RSEvent.updateState] else t3
  { trace := t4, ret := none }

/-- The metadata-application events of lines 280-283 (an `if`/`elif`: the
older entry point wins, at most one is called). -/
def metaEvents (env : EnvCaps) (m : EpMeta) : List RSEvent :=
  if env.hasSetAttrsFromEpMeta then [RSEvent.setAttrsFromEpMeta m]
  else if env.hasSetEpMeta then [RSEvent.setEpMeta m]
  else []

/-- The version-dispatched XML normalization of lines 288-295. -/
def normalizeXml (env : EnvCaps) (m : String) : Xml :=
  if env.robosuiteMinor ≤ 3 then Xml.postprocessed m else Xml.edited m

/-- The state-injection events of lines 302-304. -/
def stateEvents : Option (List ℚ) → List RSEvent
  | some v => [RSEvent.setStateFromFlattened v, RSEvent.simForward]
  | none => []

/-- The refresh-hook events of lines 307-313 (two independent `if`s). -/
def refreshEvents (env : EnvCaps) : List RSEvent :=
  (if env.hasUpdateSites then [RSEvent.updateSites] else []) ++
  (if env.hasUpdateState then [RSEvent.updateState] else [])

/-- Events belonging to metadata application. -/
def RSEvent.isMetaApply : RSEvent → Bool
  | .setAttrsFromEpMeta _ => true
  | .setEpMeta _ => true
  | _ => false

/-- Events belonging to the model-loading sequence (hard reset, xml load,
low-level engine reset). -/
def RSEvent.isModelPhase : RSEvent → Bool
  | .reset => true
  | .resetFromXmlString _ => true
  | .simReset => true
  | _ => false

/-- The command-line argument record built by `argparse` (lines 455-551).
`render_image_names` is `None` or a list of strings as parsed; `n`,
`filter_key`, `video_path` default to `None`. -/
structure Args where
  dataset : String
  filter_key : Option String
  n : Option Nat
  use_obs : Bool
  use_actions : Bool
  render : Bool
  video_path : Option String
  video_skip : Nat
  render_image_names : Option (List String)
  first : Bool
  extend_states : Bool
  verbose : Bool
  use_current_model : Bool

/-- After line 334 the Python variable `args.render_image_names` holds either
the parsed list of strings or, on the `None` auto-fill branch, the single
string `"robot0_agentview_center"`; `len()` differs accordingly. -/
inductive RenderNames where
  | ofString (s : String)
  | ofList (l : List String)
deriving DecidableEq

/-- Python `len()` on the `render_image_names` value. -/
def RenderNames.len : RenderNames → Nat
  | .ofString s => s.length
  | .ofList l => l.length

/-- Configuration state after the pre-flight checks of `playback_dataset`. -/
structure CheckedConfig where
  write_video : Bool
  video_path : String
  render_image_names : RenderNames
deriving DecidableEq

/-- The pre-flight argument checking of `playback_dataset`, lines 321-344,
before any dataset episode is touched.  Each Python `assert` that can fire is
an `Except.error`.  Note line 323: `write_video = args.render is not True`,
so `write_video` is by definition the negation of `render` and the assert at
line 328 compares `render` with its own negation. -/
def playback_dataset_argcheck (args : Args) : Except String CheckedConfig :=
  let write_video := !args.render
  let video_path : String :=
    match args.video_path with
    | some p => p
    | none =>
      if args.use_actions then
        ((args.dataset.splitOn ".hdf5").headD "") ++ "_use_actions.mp4"
      else
        ((args.dataset.splitOn ".hdf5").headD "") ++ ".mp4"
  if args.render && write_video then
    Except.error "either on-screen or video but not both"
  else
    let names : RenderNames :=
      match args.render_image_names with
      | none => RenderNames.ofString "robot0_agentview_center"
      | some l => RenderNames.ofList l
    if args.render && !(names.len == 1) then
      Except.error "on-screen rendering can only support one camera"
    else if args.use_obs && !write_video then
      Except.error "playback with observations can only write to video"
    else if args.use_obs && args.use_actions then
      Except.error "playback with observations is offline and does not support action playback"
    else
      Except.ok { write_video := write_video, video_path := video_path,
                  render_image_names := names }

/-- Euclidean norm (`np.linalg.norm`) of a rational vector, valued in ℝ. -/
noncomputable def euclNorm (v : List ℚ) : ℝ :=
  Real.sqrt ((v.map (fun x => ((x : ℝ)) ^ 2)).sum)

/-- The divergence comparison of lines 124-125: the distance
`np.linalg.norm(states[i+1] - state_playback)` is computed only inside the
`if not np.all(np.equal(...))` branch, i.e. only when the recorded and actual
vectors are not exactly elementwise equal; on exact match nothing is
computed. -/
noncomputable def divergence_distance (expected actual : List ℚ) : Option ℝ :=
  if expected = actual then none
  else some (euclNorm (List.zipWith (· - ·) expected actual))

/-- Deterministic abstract simulator: `env.step`, `env._check_success`, and
`np.array(env.sim.get_state().flatten())`. -/
structure SimModel (S A : Type) where
  step : S → A → S
  checkSuccess : S → Bool
  getState : S → List ℚ

/-- Outcome of the per-episode loop of `playback_trajectory_with_env`:
how many loop iterations ran, which divergence warnings were printed
(step index and printed norm), and the final `success` flag. -/
structure ReplayResult where
  stepsExecuted : Nat
  warnings : List (Nat × ℝ)
  success : Bool

/-- Simulator state after the first `n` recorded actions have been stepped
through `sim.step`, starting from `s0`. -/
def stepN {S A : Type} [Inhabited A] (sim : SimModel S A) (acts : List A)
    (s0 : S) : Nat → S
  | 0 => s0
  | n + 1 => sim.step (stepN sim acts s0 n) (acts.getD n default)

/-- The action-playback loop body of lines 114-134, run over the given list
of loop indices.  At index `i` it steps the simulator with `actions[i]`,
latches `success`, and, when `i < traj_len - 1` and the recorded state
`states[i+1]` is not exactly equal to the post-step flattened state, computes
the norm and prints the warning iff `verbose or i == traj_len - 2`. -/
noncomputable def replayGo {S A : Type} [Inhabited A] (sim : SimModel S A)
    (states : List (List ℚ)) (acts : List A) (verbose : Bool) (trajLen : Nat) :
    List Nat → S → Bool → ReplayResult
  | [], _, succ => { stepsExecuted := 0, warnings := [], success := succ }
  | i :: rest, s, succ =>
    let s' := sim.step s (acts.getD i default)
    let succ' := succ || sim.checkSuccess s'
    let w : List (Nat × ℝ) :=
      if i < trajLen - 1 then
        let sp := sim.getState s'
        let expected := states.getD (i + 1) []
        if expected ≠ sp then
          if verbose || i = trajLen - 2 then
            [(i, euclNorm (List.zipWith (· - ·) expected sp))]
          else []
        else []
      else []
    let r := replayGo sim states acts verbose trajLen rest s' succ'
    { stepsExecuted := r.stepsExecuted + 1, warnings := w ++ r.warnings,
      success := r.success }

/-- `playback_trajectory_with_env` (lines 58-176) after the initial
`reset_to`: `traj_len = states.shape[0]`; in action playback the assert at
line 108 requires `states.shape[0] == actions.shape[0]` and aborts before the
loop otherwise; the loop runs over `range(traj_len)`, truncated to the first
iteration when `first` is set (the `break` at line 168-169).  In state
injection mode each iteration performs `reset_to(env, dict(states=states[i]))`
and no divergence check or success latch exists. -/
noncomputable def playback_trajectory_with_env {S A : Type} [Inhabited A]
    (sim : SimModel S A) (s0 : S) (states : List (List ℚ))
    (actions : Option (List A)) (verbose first : Bool) :
    Except String ReplayResult :=
  let traj_len := states.length
  let idxs := List.range (if first then min 1 traj_len else traj_len)
  match actions with
  | some acts =>
    if traj_len = acts.length then
      Except.ok (replayGo sim states acts verbose traj_len idxs s0 false)
    else
      Except.error "assert states.shape[0] == actions.shape[0] failed"
  | none =>
    Except.ok { stepsExecuted := idxs.length, warnings := [], success := false }

/-- Line 425-426: `states = np.concatenate((states, [states[-1]] * 50))`. -/
def extend_states (states : List (List ℚ)) : List (List ℚ) :=
  states ++ List.replicate 50 (states.getLastD [])

/-- A tiny concrete simulator used to instantiate the replay theorems. -/
def natSim : SimModel Nat Nat :=
  { step := fun s a => s + a, checkSuccess := fun _ => false,
    getState := fun s => [(s : ℚ)] }

/-- Decimal digit value of a character, if it is a digit. -/
def digitVal? (c : Char) : Option Nat :=
  if c.isDigit then some (c.toNat - 48) else none

/-- Left-to-right decimal accumulation over a character list; `none` on the
first non-digit. -/
def parseDigitsAux : List Char → Nat → Option Nat
  | [], acc => some acc
  | c :: rest, acc =>
    match digitVal? c with
    | some d => parseDigitsAux rest (acc * 10 + d)
    | none => none

/-- Python `int(...)` on the character list of a string, for the forms episode
ids produce: an optional leading minus sign followed by one or more decimal
digits; `none` (Python `ValueError`) otherwise. -/
def pyInt? : List Char → Option Int
  | [] => none
  | c :: rest =>
    if c = '-' then
      match rest with
      | [] => none
      | _ => (parseDigitsAux rest 0).map (fun n => -(n : Int))
    else
      (parseDigitsAux (c :: rest) 0).map (fun n => (n : Int))

/-- The sort key of line 390: `int(elem[5:])`, the numeric value of the id
after its first five characters. -/
def demoKey (s : String) : Option Int := pyInt? (s.data.drop 5)

/-- Lines 390-391: `inds = np.argsort([int(elem[5:]) for elem in demos]);
demos = [demos[i] for i in inds]`.  `np.argsort` is modelled by sorting the
index list `range(len(demos))` by key (insertion sort; on the duplicate-free
key lists the claims are about, every comparison sort agrees with
`np.argsort`).  `none` models the `ValueError` that `int()` raises when some
id has a non-numeric suffix. -/
def demo_sort (demos : List String) : Option (List String) :=
  match demos.mapM demoKey with
  | none => none
  | some keys =>
    let inds := List.insertionSort
      (fun i j => keys.getD i 0 ≤ keys.getD j 0) (List.range demos.length)
    some (inds.map (fun i => demos.getD i ""))

/-- The numeric key of an episode id, defaulted (used only to state ordering
of lists all of whose elements parse). -/
def demoKeyD (s : String) : Int := (demoKey s).getD 0

/-- `np.concatenate(imgs, axis=1)` on images represented as lists of pixel
rows (height = number of rows): rowwise concatenation, provided every image
has the height of the first; `none` models the `ValueError` numpy raises on a
height mismatch or an empty input list. -/
def np_concat_axis1 {P : Type} (imgs : List (List (List P))) :
    Option (List (List P)) :=
  match imgs with
  | [] => none
  | i0 :: rest =>
    if rest.all (fun im => im.length == i0.length) then
      some (rest.foldl (fun acc im => List.zipWith (· ++ ·) acc im) i0)
    else none

theorem reset_to_trace_none (env : EnvCaps) (req : ResetRequest)
    (h : req.model = none) :
    (reset_to env req).trace = stateEvents req.states ++ refreshEvents env := by
  obtain ⟨mo, st, em⟩ := req
  cases mo with
  | some m => simp at h
  | none =>
    cases st <;> cases hus : env.hasUpdateSites <;>
      cases hust : env.hasUpdateState <;>
      simp [reset_to, stateEvents, refreshEvents, hus, hust]

theorem reset_to_trace_some (env : EnvCaps) (req : ResetRequest) (m : String)
    (h : req.model = some m) :
    (reset_to env req).trace =
      metaEvents env (epMetaOf req.ep_meta) ++
        [RSEvent.reset, RSEvent.resetFromXmlString (normalizeXml env m),
         RSEvent.simReset] ++ stateEvents req.states ++ refreshEvents env := by
  obtain ⟨mo, st, em⟩ := req
  cases mo with
  | none => simp at h
  | some m0 =>
    simp only [ResetRequest.model] at h
    cases h
    cases st <;> cases hus : env.hasUpdateSites <;>
      cases hust : env.hasUpdateState <;>
      simp [reset_to, metaEvents, normalizeXml, stateEvents, refreshEvents,
        hus, hust]

theorem stateEvents_no_meta_model (st : Option (List ℚ)) :
    ∀ e ∈ stateEvents st,
      RSEvent.isMetaApply e = false ∧ RSEvent.isModelPhase e = false := by
  intro e he
  have h1 : (∃ v, e = RSEvent.setStateFromFlattened v) ∨
      e = RSEvent.simForward := by
    cases st with
    | none => simp [stateEvents] at he
    | some v =>
      simp [stateEvents] at he
      tauto
  rcases h1 with ⟨v, rfl⟩ | rfl <;> exact ⟨rfl, rfl⟩

theorem refreshEvents_no_meta_model (env : EnvCaps) :
    ∀ e ∈ refreshEvents env,
      RSEvent.isMetaApply e = false ∧ RSEvent.isModelPhase e = false := by
  intro e he
  have h1 : e = RSEvent.updateSites ∨ e = RSEvent.updateState := by
    simp [refreshEvents] at he
    tauto
  rcases h1 with rfl | rfl <;> exact ⟨rfl, rfl⟩

/-- C10: for every environment handle and restoration request, `reset_to`
returns `None` — including when a state vector is injected — and never the
post-restoration observation dictionary its docstring describes (that return
is commented out in the source). -/
theorem reset_to_returns_none (env : EnvCaps) (req : ResetRequest) :
    (reset_to env req).ret = none := rfl

/-- C2 (amended): a restoration request with neither `model` nor `states` is
silently accepted by `reset_to`: it performs no model or state operations
(only the optional refresh hooks run) and returns `None`; no restoration
error is raised. -/
theorem reset_to_neither_is_noop (env : EnvCaps) (req : ResetRequest)
    (h1 : req.model = none) (h2 : req.states = none) :
    (reset_to env req).trace = refreshEvents env ∧
    (reset_to env req).ret = none := by
  refine ⟨?_, rfl⟩
  rw [reset_to_trace_none env req h1, h2]
  simp [stateEvents]

/-- C2 witness: concrete instantiation of `reset_to_neither_is_noop`. -/
theorem reset_to_neither_is_noop_witness :
    (reset_to ⟨false, true, true, true, 4⟩ ⟨none, none, none⟩).trace =
      refreshEvents ⟨false, true, true, true, 4⟩ ∧
    (reset_to ⟨false, true, true, true, 4⟩ ⟨none, none, none⟩).ret = none :=
  reset_to_neither_is_noop _ _ rfl rfl

/-- C2 counterexample: on an environment with no refresh hooks, a request
with neither `model` nor `states` makes `reset_to` return silently with an
empty call trace (the simulator is left untouched), instead of failing with
a restoration error as the claim states. -/
theorem reset_to_neither_counterexample :
    reset_to ⟨false, false, false, false, 4⟩ ⟨none, none, none⟩ =
      { trace := [], ret := none } := rfl

/-- C3: a state-only request performs no model loading and no metadata
application (its trace is exactly the state injection followed by the refresh
hooks); a request with a model yields, in order: metadata application (as
dispatched on the environment's capabilities), the hard `env.reset()`, the
model load `env.reset_from_xml_string(xml)`, the low-level `env.sim.reset()`,
and only then the state injection (when present) followed by
`env.sim.forward()`, and finally the refresh hooks. -/
theorem reset_to_ordering (env : EnvCaps) (req : ResetRequest) :
    (req.model = none →
      (reset_to env req).trace = stateEvents req.states ++ refreshEvents env ∧
      ∀ e ∈ (reset_to env req).trace,
        RSEvent.isMetaApply e = false ∧ RSEvent.isModelPhase e = false) ∧
    (∀ m, req.model = some m →
      (reset_to env req).trace =
        metaEvents env (epMetaOf req.ep_meta) ++
          [RSEvent.reset, RSEvent.resetFromXmlString (normalizeXml env m),
           RSEvent.simReset] ++ stateEvents req.states ++ refreshEvents env) := by
  constructor
  · intro h
    have hd := reset_to_trace_none env req h
    refine ⟨hd, ?_⟩
    intro e he
    rw [hd] at he
    rcases List.mem_append.mp he with h1 | h2
    · exact stateEvents_no_meta_model _ e h1
    · exact refreshEvents_no_meta_model env e h2
  · intro m hm
    exact reset_to_trace_some env req m hm

/-- C3 witness: concrete instantiation of `reset_to_ordering`. -/
theorem reset_to_ordering_witness :
    ((⟨some "xml", some [1], some "meta"⟩ : ResetRequest).model = none →
      (reset_to ⟨true, false, true, false, 3⟩
          ⟨some "xml", some [1], some "meta"⟩).trace =
        stateEvents (⟨some "xml", some [1], some "meta"⟩ : ResetRequest).states ++
          refreshEvents ⟨true, false, true, false, 3⟩ ∧
      ∀ e ∈ (reset_to ⟨true, false, true, false, 3⟩
          ⟨some "xml", some [1], some "meta"⟩).trace,
        RSEvent.isMetaApply e = false ∧ RSEvent.isModelPhase e = false) ∧
    (∀ m, (⟨some "xml", some [1], some "meta"⟩ : ResetRequest).model = some m →
      (reset_to ⟨true, false, true, false, 3⟩
          ⟨some "xml", some [1], some "meta"⟩).trace =
        metaEvents ⟨true, false, true, false, 3⟩
            (epMetaOf (⟨some "xml", some [1], some "meta"⟩ : ResetRequest).ep_meta) ++
          [RSEvent.reset,
           RSEvent.resetFromXmlString
             (normalizeXml ⟨true, false, true, false, 3⟩ m),
           RSEvent.simReset] ++
          stateEvents (⟨some "xml", some [1], some "meta"⟩ : ResetRequest).states ++
          refreshEvents ⟨true, false, true, false, 3⟩) :=
  reset_to_ordering _ _

/-- C5 (amended): `reset_to` invokes every refresh capability the simulator
implements — `update_sites` appears in the trace iff the environment has it,
and likewise `update_state`; when the environment implements both, both are
called, and when it implements neither, the call succeeds invoking neither. -/
theorem reset_to_refresh_caps (env : EnvCaps) (req : ResetRequest) :
    ((RSEvent.updateSites ∈ (reset_to env req).trace) ↔
      env.hasUpdateSites = true) ∧
    ((RSEvent.updateState ∈ (reset_to env req).trace) ↔
      env.hasUpdateState = true) := by
  obtain ⟨mo, st, em⟩ := req
  cases mo <;> cases st <;>
    cases hsa : env.hasSetAttrsFromEpMeta <;> cases hse : env.hasSetEpMeta <;>
    cases hus : env.hasUpdateSites <;> cases hust : env.hasUpdateState <;>
    simp [reset_to, hsa, hse, hus, hust]

/-- C5 witness: concrete instantiation of `reset_to_refresh_caps` on an
environment implementing neither refresh hook. -/
theorem reset_to_refresh_caps_witness :
    ((RSEvent.updateSites ∈
        (reset_to ⟨false, false, false, false, 4⟩ ⟨none, none, none⟩).trace) ↔
      (⟨false, false, false, false, 4⟩ : EnvCaps).hasUpdateSites = true) ∧
    ((RSEvent.updateState ∈
        (reset_to ⟨false, false, false, false, 4⟩ ⟨none, none, none⟩).trace) ↔
      (⟨false, false, false, false, 4⟩ : EnvCaps).hasUpdateState = true) :=
  reset_to_refresh_caps _ _

/-- C5 counterexample: on an environment implementing both `update_sites` and
`update_state`, `reset_to` calls both (the source uses two independent `if`s,
not `if`/`elif`), contradicting the claim that exactly one of the two refresh
capabilities is ever invoked. -/
theorem reset_to_refresh_counterexample :
    RSEvent.updateSites ∈
      (reset_to ⟨false, false, true, true, 4⟩ ⟨none, none, none⟩).trace ∧
    RSEvent.updateState ∈
      (reset_to ⟨false, false, true, true, 4⟩ ⟨none, none, none⟩).trace := by
  decide

/-- C4 (amended): when the recorded next state differs from the simulator's
current state, the computed divergence distance is the Euclidean norm of the
elementwise difference of the two vectors; when the two vectors are exactly
equal, no distance is computed or reported (the norm lives inside the
inequality branch). -/
theorem divergence_distance_spec (e a : List ℚ) (h : e ≠ a) :
    divergence_distance e a =
      some (euclNorm (List.zipWith (· - ·) e a)) ∧
    divergence_distance a a = none := by
  constructor
  · simp only [divergence_distance, if_neg h]
  · simp only [divergence_distance, if_pos]

/-- C4 witness: concrete instantiation of `divergence_distance_spec`. -/
theorem divergence_distance_spec_witness :
    divergence_distance [(1 : ℚ)] [(3 : ℚ)] =
      some (euclNorm (List.zipWith (· - ·) [(1 : ℚ)] [(3 : ℚ)])) ∧
    divergence_distance [(3 : ℚ)] [(3 : ℚ)] = none :=
  divergence_distance_spec [1] [3] (by decide)

/-- C4 counterexample: for two exactly-equal vectors no distance is computed
or reported at all, contradicting the claim that the distance is always
computed and reported even when `exact_match` is true. -/
theorem divergence_distance_counterexample :
    divergence_distance [(1 : ℚ), 2] [(1 : ℚ), 2] = none := by
  simp [divergence_distance]

/-- C1 (amended): on-screen rendering and video-file output can never be
simultaneously active: `write_video` is defined as the negation of `render`,
so the mutual-exclusivity assertion is vacuous and never fails; a run
requesting both on-screen rendering and a video path is not rejected for
that reason, and whenever the pre-flight checks succeed the resulting
configuration has `write_video` equal to the negation of `render` (the video
path is simply ignored when rendering on-screen). -/
theorem render_disables_video (args : Args) :
    playback_dataset_argcheck args ≠
      Except.error "either on-screen or video but not both" ∧
    ∀ cfg, playback_dataset_argcheck args = Except.ok cfg →
      cfg.write_video = !args.render := by
  unfold playback_dataset_argcheck
  simp only [Bool.and_not_self, Bool.false_eq_true, if_false]
  constructor
  · split_ifs <;> simp
  · intro cfg h
    split_ifs at h
    all_goals
      first
      | exact Except.noConfusion h
      | (cases h; rfl)

/-- C1 witness: concrete instantiation of `render_disables_video`. -/
theorem render_disables_video_witness :
    playback_dataset_argcheck
      { dataset := "demo.hdf5", filter_key := none, n := none, use_obs := false,
        use_actions := false, render := true, video_path := some "out.mp4",
        video_skip := 5, render_image_names := some ["agentview"],
        first := false, extend_states := false, verbose := false,
        use_current_model := false } ≠
      Except.error "either on-screen or video but not both" :=
  (render_disables_video _).1

/-- C1 counterexample: a run configuration requesting both on-screen
rendering and a video file passes all pre-flight checks (no configuration
error is raised before episodes are processed); video output is silently
disabled instead. -/
theorem both_outputs_requested_not_rejected :
    playback_dataset_argcheck
      { dataset := "demo.hdf5", filter_key := none, n := none, use_obs := false,
        use_actions := false, render := true, video_path := some "out.mp4",
        video_skip := 5, render_image_names := some ["agentview"],
        first := false, extend_states := false, verbose := false,
        use_current_model := false } =
      Except.ok { write_video := false, video_path := "out.mp4",
                  render_image_names := RenderNames.ofList ["agentview"] } := rfl

/-- C9: when the recorded action and state sequences have equal length and
the episode is nonempty, enabling `extend_states` together with action
playback appends 50 replicated final states to the state sequence but not to
the action sequence, so the replay driver fails its length-equality assertion
before executing any step. -/
theorem extend_states_breaks_action_replay {S A : Type} [Inhabited A]
    (sim : SimModel S A) (s0 : S) (states : List (List ℚ)) (acts : List A)
    (verbose first : Bool) (hlen : states.length = acts.length)
    (_hne : states ≠ []) :
    playback_trajectory_with_env sim s0 (extend_states states) (some acts)
      verbose first =
      Except.error "assert states.shape[0] == actions.shape[0] failed" := by
  have h : ¬((extend_states states).length = acts.length) := by
    simp only [extend_states, List.length_append, List.length_replicate]
    omega
  simp only [playback_trajectory_with_env]
  rw [if_neg h]

/-- C9 witness: concrete instantiation of
`extend_states_breaks_action_replay`. -/
theorem extend_states_breaks_action_replay_witness :
    playback_trajectory_with_env natSim 0 (extend_states [[0]]) (some [1])
      false false =
      Except.error "assert states.shape[0] == actions.shape[0] failed" :=
  extend_states_breaks_action_replay natSim 0 [[0]] [1] false false rfl
    (by decide)

theorem zipWith_append_getD {P : Type} (a b : List (List P)) (i : Nat)
    (ha : i < a.length) (hb : i < b.length) :
    (List.zipWith (· ++ ·) a b).getD i [] = a.getD i [] ++ b.getD i [] := by
  induction a generalizing b i with
  | nil => simp at ha
  | cons x xs ih =>
    cases b with
    | nil => simp at hb
    | cons y ys =>
      cases i with
      | zero => simp
      | succ n =>
        simp only [List.zipWith_cons_cons, List.getD_cons_succ]
        exact ih ys n (by simpa using ha) (by simpa using hb)

theorem mem_zipWith_append {P : Type} (a b : List (List P)) (r : List P)
    (hr : r ∈ List.zipWith (· ++ ·) a b) :
    ∃ x ∈ a, ∃ y ∈ b, r = x ++ y := by
  induction a generalizing b with
  | nil => simp at hr
  | cons x xs ih =>
    cases b with
    | nil => simp at hr
    | cons y ys =>
      simp only [List.zipWith_cons_cons, List.mem_cons] at hr
      rcases hr with rfl | hr
      · exact ⟨x, by simp, y, by simp, rfl⟩
      · obtain ⟨x', hx', y', hy', rfl⟩ := ih ys hr
        exact ⟨x', by simp [hx'], y', by simp [hy'], rfl⟩

/-- C8: for two equal-height images, the frame multiplexer concatenates
strictly along the width axis preserving order — the result has height `H`,
every row has width `2W`, the first image occupies columns `[0, W)` and the
second columns `[W, 2W)` — and it fails (`none`) on mismatched heights. -/
theorem np_concat_two_frames {P : Type} (A B : List (List P)) (H W : Nat)
    (hA : A.length = H) (hB : B.length = H)
    (hAw : ∀ r ∈ A, r.length = W) (hBw : ∀ r ∈ B, r.length = W) :
    np_concat_axis1 [A, B] = some (List.zipWith (· ++ ·) A B) ∧
    (List.zipWith (· ++ ·) A B).length = H ∧
    (∀ r ∈ List.zipWith (· ++ ·) A B, r.length = W + W) ∧
    (∀ i, i < H →
      ((List.zipWith (· ++ ·) A B).getD i []).take W = A.getD i [] ∧
      ((List.zipWith (· ++ ·) A B).getD i []).drop W = B.getD i []) ∧
    (∀ C D : List (List P), C.length ≠ D.length →
      np_concat_axis1 [C, D] = none) := by
  refine ⟨?_, ?_, ?_, ?_, ?_⟩
  · simp [np_concat_axis1, hA, hB]
  · simp [List.length_zipWith, hA, hB]
  · intro r hr
    obtain ⟨x, hx, y, hy, rfl⟩ := mem_zipWith_append A B r hr
    rw [List.length_append, hAw x hx, hBw y hy]
  · intro i hi
    have hiA : i < A.length := by omega
    have hiB : i < B.length := by omega
    have hrow := zipWith_append_getD A B i hiA hiB
    have hxw : (A.getD i []).length = W := by
      rw [List.getD_eq_getElem A [] hiA]
      exact hAw _ (List.getElem_mem hiA)
    constructor
    · rw [hrow, ← hxw, List.take_left]
    · rw [hrow, ← hxw, List.drop_left]
  · intro C D h
    have h2 : ¬(D.length = C.length) := fun hh => h hh.symm
    simp [np_concat_axis1, h2]

/-- C8 witness: concrete instantiation of `np_concat_two_frames` on two
2-by-1 images. -/
theorem np_concat_two_frames_witness :
    np_concat_axis1 [[[1], [2]], [[3], [4]]] =
      some (List.zipWith (· ++ ·) [[1], [2]] [[3], [4]]) ∧
    (List.zipWith (· ++ ·) [[1], [2]] [[3], [4]]).length = 2 ∧
    (∀ r ∈ List.zipWith (· ++ ·) [[1], [2]] [[3], [4]], r.length = 1 + 1) ∧
    (∀ i, i < 2 →
      ((List.zipWith (· ++ ·) [[1], [2]] [[3], [4]]).getD i []).take 1 =
        [[1], [2]].getD i [] ∧
      ((List.zipWith (· ++ ·) [[1], [2]] [[3], [4]]).getD i []).drop 1 =
        [[3], [4]].getD i []) ∧
    (∀ C D : List (List Nat), C.length ≠ D.length →
      np_concat_axis1 [C, D] = none) :=
  np_concat_two_frames [[1], [2]] [[3], [4]] 2 1 rfl rfl (by decide) (by decide)

theorem mapM_option_spec {α β : Type} (f : α → Option β) (l : List α)
    (bs : List β) (h : l.mapM f = some bs) :
    bs.length = l.length ∧
    ∀ i (da : α) (db : β), i < l.length →
      f (l.getD i da) = some (bs.getD i db) := by
  induction l generalizing bs with
  | nil =>
    rw [List.mapM_nil] at h
    cases h
    simp
  | cons a t ih =>
    rw [List.mapM_cons] at h
    simp only [Option.pure_def, Option.bind_eq_bind, Option.bind_eq_some,
      Option.some.injEq] at h
    obtain ⟨b, hfa, bt, hmt, hcons⟩ := h
    subst hcons
    obtain ⟨hlen, hidx⟩ := ih bt hmt
    refine ⟨by simp [hlen], ?_⟩
    intro i da db hi
    cases i with
    | zero => simpa using hfa
    | succ n =>
      simp only [List.getD_cons_succ]
      exact hidx n da db (by simpa using hi)

theorem map_getD_range {α : Type} (l : List α) (d : α) :
    (List.range l.length).map (fun i => l.getD i d) = l := by
  induction l with
  | nil => simp
  | cons a t ih =>
    rw [List.length_cons, List.range_succ_eq_map, List.map_cons, List.map_map]
    simp only [List.getD_cons_zero]
    congr 1

/-- C6: episode ids are replayed in strictly ascending numeric order of their
trailing numeric suffix (`int(elem[5:])`), regardless of storage insertion
order: whenever every id parses and the numeric keys are duplicate-free,
`demo_sort` succeeds, returns a permutation of the stored list, and that
permutation is strictly increasing in the numeric key. -/
theorem demo_sort_ascending (demos : List String) (keys : List Int)
    (hk : demos.mapM demoKey = some keys) (hnd : keys.Nodup) :
    ∃ out, demo_sort demos = some out ∧ out.Perm demos ∧
      out.Pairwise (fun a b => demoKeyD a < demoKeyD b) := by
  obtain ⟨hlen, hidx⟩ := mapM_option_spec demoKey demos keys hk
  have hd : demo_sort demos =
      some ((List.insertionSort
          (fun i j => keys.getD i 0 ≤ keys.getD j 0)
          (List.range demos.length)).map (fun i => demos.getD i "")) := by
    unfold demo_sort
    rw [hk]
  have hperm : (List.insertionSort
      (fun i j => keys.getD i 0 ≤ keys.getD j 0)
      (List.range demos.length)).Perm (List.range demos.length) :=
    List.perm_insertionSort _ _
  have hmem : ∀ i ∈ List.insertionSort
      (fun i j => keys.getD i 0 ≤ keys.getD j 0)
      (List.range demos.length), i < demos.length := by
    intro i hi
    exact List.mem_range.mp (hperm.mem_iff.mp hi)
  have hsort : List.Sorted (fun i j => keys.getD i 0 ≤ keys.getD j 0)
      (List.insertionSort (fun i j => keys.getD i 0 ≤ keys.getD j 0)
        (List.range demos.length)) := by
    haveI : IsTotal Nat (fun i j => keys.getD i 0 ≤ keys.getD j 0) :=
      ⟨fun i j => le_total _ _⟩
    haveI : IsTrans Nat (fun i j => keys.getD i 0 ≤ keys.getD j 0) :=
      ⟨fun i j k hij hjk => le_trans hij hjk⟩
    exact List.sorted_insertionSort _ _
  have hndidx : (List.insertionSort
      (fun i j => keys.getD i 0 ≤ keys.getD j 0)
      (List.range demos.length)).Nodup :=
    hperm.symm.nodup (List.nodup_range _)
  have hstrict : (List.insertionSort
      (fun i j => keys.getD i 0 ≤ keys.getD j 0)
      (List.range demos.length)).Pairwise
        (fun i j => keys.getD i 0 < keys.getD j 0) := by
    refine (hsort.and hndidx).imp_of_mem ?_
    intro i j hi hj hij
    obtain ⟨hle, hne⟩ := hij
    have hi' : i < keys.length := by rw [hlen]; exact hmem i hi
    have hj' : j < keys.length := by rw [hlen]; exact hmem j hj
    refine lt_of_le_of_ne hle ?_
    intro he
    apply hne
    rw [List.getD_eq_getElem keys 0 hi', List.getD_eq_getElem keys 0 hj'] at he
    exact (hnd.getElem_inj_iff).mp he
  refine ⟨_, hd, ?_, ?_⟩
  · have h1 := hperm.map (fun i => demos.getD i "")
    rw [map_getD_range demos ""] at h1
    exact h1
  · refine List.pairwise_map.mpr ?_
    refine hstrict.imp_of_mem ?_
    intro i j hi hj hlt
    have hki := hidx i "" 0 (hmem i hi)
    have hkj := hidx j "" 0 (hmem j hj)
    show demoKeyD (demos.getD i "") < demoKeyD (demos.getD j "")
    unfold demoKeyD
    rw [hki, hkj]
    simpa using hlt

/-- C6 witness: the claim's own example — storage order
`["demo_10", "demo_2"]` is replayed as `["demo_2", "demo_10"]` — plus the
instantiation of `demo_sort_ascending` on it. -/
theorem demo_sort_ascending_witness :
    demo_sort ["demo_10", "demo_2"] = some ["demo_2", "demo_10"] ∧
    ∃ out, demo_sort ["demo_10", "demo_2"] = some out ∧
      out.Perm ["demo_10", "demo_2"] ∧
      out.Pairwise (fun a b => demoKeyD a < demoKeyD b) :=
  ⟨by decide, demo_sort_ascending ["demo_10", "demo_2"] [10, 2]
    (by decide) (by decide)⟩

theorem replayGo_stepsExecuted {S A : Type} [Inhabited A] (sim : SimModel S A)
    (states : List (List ℚ)) (acts : List A) (verbose : Bool) (trajLen : Nat) :
    ∀ (l : List Nat) (s : S) (succ : Bool),
      (replayGo sim states acts verbose trajLen l s succ).stepsExecuted =
        l.length := by
  intro l
  induction l with
  | nil => intro s succ; rfl
  | cons i rest ih =>
    intro s succ
    simp [replayGo, ih]

theorem replayGo_warnings_eq {S A : Type} [Inhabited A] (sim : SimModel S A)
    (states : List (List ℚ)) (acts : List A) (verbose : Bool) (trajLen : Nat)
    (s0 : S) :
    ∀ (m k : Nat) (succ : Bool) (s : S), s = stepN sim acts s0 k →
      (replayGo sim states acts verbose trajLen (List.range' k m) s
          succ).warnings =
      (List.range' k m).filterMap (fun i =>
        if i < trajLen - 1 then
          if states.getD (i + 1) [] ≠ sim.getState (stepN sim acts s0 (i + 1)) then
            if verbose || i = trajLen - 2 then
              some (i, euclNorm (List.zipWith (· - ·) (states.getD (i + 1) [])
                (sim.getState (stepN sim acts s0 (i + 1)))))
            else none
          else none
        else none) := by
  intro m
  induction m with
  | zero => intro k succ s hs; rfl
  | succ n ih =>
    intro k succ s hs
    rw [List.range'_succ]
    simp only [replayGo]
    have hs' : sim.step s (acts.getD k default) = stepN sim acts s0 (k + 1) := by
      rw [hs]
      rfl
    rw [hs']
    rw [ih (k + 1) (succ || sim.checkSuccess (stepN sim acts s0 (k + 1)))
      (stepN sim acts s0 (k + 1)) rfl]
    rw [List.filterMap_cons]
    split_ifs <;> simp

/-- C7: with action playback (and `first` off), a state divergence at any
step never aborts the loop — every one of the `traj_len` steps is executed —
and a divergence warning is printed at step `i` exactly when the recorded
state `states[i+1]` differs from the stepped simulator state and either
verbose logging is on or `i` is the final checked step `traj_len - 2`. -/
theorem action_replay_divergence_nonfatal {S A : Type} [Inhabited A]
    (sim : SimModel S A) (s0 : S) (states : List (List ℚ)) (acts : List A)
    (verbose : Bool) (hlen : states.length = acts.length) :
    ∃ r, playback_trajectory_with_env sim s0 states (some acts) verbose false =
        Except.ok r ∧
      r.stepsExecuted = states.length ∧
      ∀ i e, ((i, e) ∈ r.warnings ↔
        (i < states.length - 1 ∧
         states.getD (i + 1) [] ≠ sim.getState (stepN sim acts s0 (i + 1)) ∧
         (verbose = true ∨ i = states.length - 2) ∧
         e = euclNorm (List.zipWith (· - ·) (states.getD (i + 1) [])
           (sim.getState (stepN sim acts s0 (i + 1)))))) := by
  have heq : playback_trajectory_with_env sim s0 states (some acts) verbose
      false =
      Except.ok (replayGo sim states acts verbose states.length
        (List.range states.length) s0 false) := by
    simp only [playback_trajectory_with_env, Bool.false_eq_true, if_false]
    rw [if_pos hlen]
  refine ⟨_, heq, ?_, ?_⟩
  · rw [replayGo_stepsExecuted]
    exact List.length_range _
  · intro i e
    have hw := replayGo_warnings_eq sim states acts verbose states.length s0
      states.length 0 false s0 rfl
    rw [← List.range_eq_range'] at hw
    rw [hw, List.mem_filterMap]
    constructor
    · rintro ⟨j, hj, hfj⟩
      rw [List.mem_range] at hj
      split_ifs at hfj with h1 h2 h3
      · simp only [Option.some.injEq, Prod.mk.injEq] at hfj
        obtain ⟨rfl, rfl⟩ := hfj
        simp only [Bool.or_eq_true, decide_eq_true_eq] at h3
        exact ⟨h1, h2, h3, rfl⟩
    · rintro ⟨h1, h2, h3, rfl⟩
      refine ⟨i, List.mem_range.mpr (by omega), ?_⟩
      rw [if_pos h1, if_pos h2, if_pos ?_]
      rcases h3 with h3 | h3 <;> simp [h3]

/-- C7 witness: concrete instantiation of
`action_replay_divergence_nonfatal` on a two-step episode. -/
theorem action_replay_divergence_nonfatal_witness :
    ∃ r, playback_trajectory_with_env natSim 0 [[0], [1]] (some [5, 5])
        false false = Except.ok r ∧
      r.stepsExecuted = [[0], [1]].length ∧
      ∀ i e, ((i, e) ∈ r.warnings ↔
        (i < [[0], [1]].length - 1 ∧
         [[0], [1]].getD (i + 1) [] ≠
           natSim.getState (stepN natSim [5, 5] 0 (i + 1)) ∧
         (false = true ∨ i = [[0], [1]].length - 2) ∧
         e = euclNorm (List.zipWith (· - ·) ([[0], [1]].getD (i + 1) [])
           (natSim.getState (stepN natSim [5, 5] 0 (i + 1)))))) :=
  action_replay_divergence_nonfatal natSim 0 [[0], [1]] [5, 5] false rfl
